import Mathlib

/-!
# FloatChat — verification of the query-intent / multi-plot selection core

Shallow embedding of the decision logic of the FloatChat repository:

* `src/backend/lightweight_plot_generator.py` — `LightweightPlotGenerator.classify_prompt`,
  `extract_location`, `fetch_data_from_db` (column renaming), `_create_mock_data` (shape only);
* `src/sql_query_generator.py` — `SQLQueryGenerator._extract_query_metadata`;
* `src/lightweight_pipeline.py` — `LightweightFloatChatPipeline.process_user_query` and its
  helper responses and data-summary builders.

Python strings are Lean `String`s, Python floats are `ℚ` (every literal in the scoring logic
is a decimal fraction; no rounding occurs), Python dicts with string keys are association
lists in insertion order, and raising/catching exceptions is modelled with `Except`.

The scikit-learn classifier (`TfidfVectorizer` + `MultiOutputClassifier(RandomForest)`) is an
opaque trained model.  Its *use* in `classify_prompt` is embedded exactly: the code calls
`predict_proba(X)[0]`, which for a `MultiOutputClassifier` is the probability array of the
FIRST output label only, of shape (1 sample, 2 classes); hence `len(predictions) == 1` and the
loop guard `if len(predictions) > i` succeeds only for `i = 0`.  So the label `"profile"`
receives `predictions[0].max()` — the larger of two class probabilities, a value in
[1/2, 1] — and every other label receives the literal `0.1`.  We carry that single unknown
probability as a parameter `p`; theorems that need it assume `1/2 ≤ p` (and `p ≤ 1`), which
holds for any probability vector over two classes.
-/

namespace FloatChat

/- The Batteries rational-number operations are `@[irreducible]`, which blocks the
evaluation of concrete score computations by `decide`/`rfl`; re-open them for this
verification file (this does not change any definition, only local reducibility). -/
unseal Rat.mul Rat.inv Rat.add Rat.sub Rat.ofScientific

set_option maxHeartbeats 1600000
set_option maxRecDepth 8000

/-! ## String helpers (Python `str.lower`, `in`, `str.title`) -/

/-- Python `str.lower()` (ASCII-sufficient for every keyword in the source). -/
def pyLower (s : String) : String :=
  String.mk (s.data.map Char.toLower)

/-- Is `needle` a contiguous sublist of `hay`?  (Python `needle in hay` on strings.) -/
def isSubChars (needle : List Char) : List Char → Bool
  | [] => needle.isEmpty
  | c :: rest => needle.isPrefixOf (c :: rest) || isSubChars needle rest

/-- Python `needle in hay` for strings. -/
def strContains (hay needle : String) : Bool :=
  isSubChars needle.data hay.data

/-- Python `any(word in hay for word in needles)`. -/
def containsAny (hay : String) (needles : List String) : Bool :=
  needles.any (fun w => strContains hay w)

/-- Helper for `pyTitle`: the Boolean records whether the previous character was alphabetic. -/
def pyTitleAux : Bool → List Char → List Char
  | _, [] => []
  | prevAlpha, c :: rest =>
    (if c.isAlpha && !prevAlpha then c.toUpper
     else if c.isAlpha then c.toLower else c) :: pyTitleAux c.isAlpha rest

/-- Python `str.title()`: first letter of each alphabetic run uppercased, the rest lowercased. -/
def pyTitle (s : String) : String :=
  String.mk (pyTitleAux false s.data)

/-! ## Score maps — Python dicts from chart-type label to float, in insertion order -/

/-- A Python dict mapping chart-type labels to scores, as an association list in
insertion order (Python 3.7+ dicts preserve insertion order; `classify_prompt`
relies on it for selection order and stable sorting). -/
abbrev ScoreMap := List (String × ℚ)

/-- Python `d.get(key, 0.0)` / `d[key]` for a key known to be present. -/
def getD : ScoreMap → String → ℚ
  | [], _ => 0
  | (k, v) :: rest, key => if k = key then v else getD rest key

/-- Python `d[key] = value` for a key already present (every assignment in
`classify_prompt` targets one of the five initialised keys). -/
def setV : ScoreMap → String → ℚ → ScoreMap
  | [], _, _ => []
  | (k, v) :: rest, key, nv => if k = key then (k, nv) :: rest else (k, v) :: setV rest key nv

/-- Python's binary `max(a, b)` on floats, written so that it kernel-reduces on
concrete rationals (it agrees with `max`: see `pyMax_eq_max`). -/
def pyMax (a b : ℚ) : ℚ :=
  if a ≤ b then b else a

/-- Python `max(d.values())` (the dicts it is applied to are never empty). -/
def maxValues : ScoreMap → ℚ
  | [] => 0
  | (_, v) :: rest => rest.foldl (fun acc kv => pyMax acc kv.2) v

/-! ## `classify_prompt`  (lightweight_plot_generator.py, lines 123–243) -/

/-- `plot_categories` (line 136). -/
def plotCategories : List String :=
  ["profile", "time_series", "map", "ts_diagram", "3d_scatter"]

/-- The `scores` dict built from `predict_proba` (lines 133–145).  As explained in the
header, `predictions = predict_proba(X)[0]` has a single row, so only `i = 0`
(`"profile"`) reads a model probability `p = predictions[0].max()`; all other labels get
the literal fallback `0.1`. -/
def mlScores (p : ℚ) : ScoreMap :=
  [("profile", p), ("time_series", 1/10), ("map", 1/10), ("ts_diagram", 1/10),
   ("3d_scatter", 1/10)]

/-- One keyword rule (lines 160–187): if any keyword matches, assign the three listed
scores (plain assignment, overwriting whatever was there). -/
def applyRule (s : ScoreMap) (cond : Bool) (k1 : String) (v1 : ℚ)
    (k2 : String) (v2 : ℚ) (k3 : String) (v3 : ℚ) : ScoreMap :=
  if cond then setV (setV (setV s k1 v1) k2 v2) k3 v3 else s

/-- The "ocean analysis" rule (lines 190–193): raise each listed score to at least the
given value, sequentially. -/
def applyMaxRule (s : ScoreMap) (cond : Bool) (k1 : String) (v1 : ℚ)
    (k2 : String) (v2 : ℚ) (k3 : String) (v3 : ℚ) : ScoreMap :=
  if cond then
    let s1 := setV s k1 (pyMax (getD s k1) v1)
    let s2 := setV s1 k2 (pyMax (getD s1 k2) v2)
    setV s2 k3 (pyMax (getD s2 k3) v3)
  else s

/-- `intelligent_scores` (lines 150–193), applied to the already-lowercased prompt.
The six rules run in source order; note that the rules use plain assignment, so a later
rule overwrites an earlier one (e.g. the map/location rule sets `profile` to 0.6 even if
the profile rule had set it to 0.9). -/
def intelligentScores (pl : String) : ScoreMap :=
  let s0 : ScoreMap :=
    [("profile", 0), ("time_series", 0), ("map", 0), ("ts_diagram", 0), ("3d_scatter", 0)]
  let s1 := applyRule s0
    (containsAny pl ["profile", "depth", "vertical", "temperature profile", "salinity profile"])
    "profile" (9/10) "ts_diagram" (7/10) "3d_scatter" (3/5)
  let s2 := applyRule s1
    (containsAny pl ["time", "temporal", "over time", "series", "trend", "evolution"])
    "time_series" (9/10) "map" (3/5) "profile" (1/2)
  let s3 := applyRule s2
    (containsAny pl ["map", "geographic", "spatial", "location", "region", "area",
                     "mumbai", "chennai", "goa", "kerala"])
    "map" (9/10) "3d_scatter" (4/5) "profile" (3/5)
  let s4 := applyRule s3
    (containsAny pl ["salinity", "water mass", "ts", "t-s", "temperature.*salinity"])
    "ts_diagram" (9/10) "profile" (4/5) "3d_scatter" (3/5)
  let s5 := applyRule s4
    (containsAny pl ["3d", "three", "dimensional", "scatter", "visualization", "interactive"])
    "3d_scatter" (9/10) "profile" (3/5) "map" (7/10)
  applyMaxRule s5
    (containsAny pl ["ocean", "water", "analysis", "data", "show me", "analyze"])
    "3d_scatter" (7/10) "profile" (3/5) "map" (3/5)

/-- `enhanced_scores` before the floor (lines 196–202):
`combined_score = max(rule_score, ml_score * 0.8)` for each of the five categories. -/
def blendedScores (prompt : String) (p : ℚ) : ScoreMap :=
  let pl := pyLower prompt
  let intel := intelligentScores pl
  let ml := mlScores p
  plotCategories.map (fun l => (l, pyMax (getD intel l) (getD ml l * (4/5))))

/-- The floor (lines 205–209): if `max(enhanced_scores.values()) < 0.4`, overwrite
`3d_scatter`/`profile`/`map` with 0.8/0.7/0.6 (the other two keys keep their values). -/
def flooredScores (prompt : String) (p : ℚ) : ScoreMap :=
  if maxValues (blendedScores prompt p) < 2/5 then
    setV (setV (setV (blendedScores prompt p) "3d_scatter" (4/5)) "profile" (7/10)) "map" (3/5)
  else blendedScores prompt p

/-- Python's stable `sorted(..., key=lambda x: x[1], reverse=True)`:
`a` precedes `b` when `b.2 ≤ a.2`; insertion sort keeps the original order of
equal-scored entries, exactly like CPython's stable sort with `reverse=True`. -/
def sortDesc (l : ScoreMap) : ScoreMap :=
  List.insertionSort (fun a b => b.2 ≤ a.2) l

/-- One iteration of the complementary-plot loop (lines 217–221): append the plot if it
is new and scores above 0.2, and raise its stored score to at least 0.5.  The score
tested is the one from the sorted snapshot (`kv.2`). -/
def augmentStep (acc : List String × ScoreMap) (kv : String × ℚ) : List String × ScoreMap :=
  if kv.1 ∉ acc.1 ∧ 1/5 < kv.2 then
    (acc.1 ++ [kv.1], setV acc.2 kv.1 (pyMax (getD acc.2 kv.1) (1/2)))
  else acc

/-- Threshold selection (line 212): labels whose score is ≥ threshold, in dict order. -/
def selectStage1 (e : ScoreMap) (threshold : ℚ) : List String :=
  (e.filter (fun kv => threshold ≤ kv.2)).map Prod.fst

/-- Lines 215–221: if fewer than 2 plots were chosen, fold the top 3 of the sorted
score list through `augmentStep` (which may also mutate the score dict). -/
def selectStage2 (e : ScoreMap) (threshold : ℚ) : List String × ScoreMap :=
  if (selectStage1 e threshold).length < 2 then
    ((sortDesc e).take 3).foldl augmentStep (selectStage1 e threshold, e)
  else (selectStage1 e threshold, e)

/-- Lines 224–227: if still nothing was chosen, force `["3d_scatter", "profile"]`. -/
def selectStage3 (ce : List String × ScoreMap) : List String × ScoreMap :=
  if ce.1 = [] then
    (["3d_scatter", "profile"], setV (setV ce.2 "3d_scatter" (4/5)) "profile" (7/10))
  else ce

/-- Lines 230–233: if more than 4 plots were chosen, keep the top 4 by (current) score. -/
def selectStage4 (ce : List String × ScoreMap) : List String × ScoreMap :=
  if 4 < ce.1.length then
    (((sortDesc (ce.1.map (fun l => (l, getD ce.2 l)))).take 4).map Prod.fst, ce.2)
  else ce

/-- `classify_prompt(prompt, threshold)` (lines 123–235): returns
`(chosen_plots, enhanced_scores)`.  `p` is the opaque model probability for the
`"profile"` output (see the header).  The `except` fallback of lines 237–243 is
unreachable here: the embedded body is total. -/
def classifyPrompt (prompt : String) (threshold p : ℚ) : List String × ScoreMap :=
  selectStage4 (selectStage3 (selectStage2 (flooredScores prompt p) threshold))

/-! ## `extract_location`  (lightweight_plot_generator.py, lines 245–265) -/

/-- The `locations` dict of `extract_location`, in insertion order: cities (with
historical/alternate names) first, ocean regions last. -/
def locationsGazetteer : List (String × List String) :=
  [("mumbai", ["mumbai", "bombay"]),
   ("chennai", ["chennai", "madras"]),
   ("kolkata", ["kolkata", "calcutta"]),
   ("delhi", ["delhi", "new delhi"]),
   ("bangalore", ["bangalore", "bengaluru"]),
   ("goa", ["goa"]),
   ("kerala", ["kerala", "kochi", "cochin"]),
   ("gujarat", ["gujarat", "ahmedabad"]),
   ("arabian sea", ["arabian sea", "arabian"]),
   ("bay of bengal", ["bay of bengal", "bengal bay"]),
   ("indian ocean", ["indian ocean"])]

/-- Every keyword of the gazetteer, flattened (used to state "no location keyword"). -/
def allLocationKeywords : List String :=
  ["mumbai", "bombay", "chennai", "madras", "kolkata", "calcutta", "delhi", "new delhi",
   "bangalore", "bengaluru", "goa", "kerala", "kochi", "cochin", "gujarat", "ahmedabad",
   "arabian sea", "arabian", "bay of bengal", "bengal bay", "indian ocean"]

/-- `extract_location(prompt)`: the first gazetteer entry one of whose keywords occurs
in the lowercased prompt, title-cased; `None` if no keyword occurs. -/
def extractLocation (prompt : String) : Option String :=
  (locationsGazetteer.find? (fun loc => containsAny (pyLower prompt) loc.2)).map
    (fun loc => pyTitle loc.1)

/-! ## `_extract_query_metadata`  (sql_query_generator.py, lines 147–208) -/

/-- The metadata dict built by `_extract_query_metadata`.  Keys that the except-branch
fallback of `generate_sql_query` omits are modelled by the field defaults. -/
structure QueryMetadata where
  query_type : String := "unknown"
  location : Option String := none
  parameters : List String := []
  depth_range : Option String := none
  time_constraint : Bool := false
  spatial_query : Bool := false
  errMsg : Option String := none
  deriving Repr, DecidableEq

/-- Lines 162–172: the query-type chain over the lowercased SQL, with the spatial flag
set exactly in the spatial branch.  Every check is a plain substring test. -/
def detectQueryType (sqlL : String) : String × Bool :=
  if strContains sqlL "order by pressure_dbar" then ("profile", false)
  else if strContains sqlL "order by date_time" then ("time_series", false)
  else if strContains sqlL "st_dwithin" || strContains sqlL "st_distance" then ("spatial", true)
  else if strContains sqlL "float_id" then ("float_specific", false)
  else ("general", false)

/-- Lines 175–184: measured parameters from the user text, defaulting to temperature. -/
def detectParameters (userL : String) : List String :=
  let ps :=
    (if strContains userL "temperature" then ["temperature"] else []) ++
    (if strContains userL "salinity" then ["salinity"] else []) ++
    (if strContains userL "pressure" || strContains userL "depth" then ["pressure"] else [])
  if ps = [] then ["temperature"] else ps

/-- Lines 186–198: the city loop sets `location` to the first matching city; the region
loop then runs unconditionally and OVERWRITES it with the first matching region. -/
def detectLocation (userL : String) : Option String :=
  let city := (["mumbai", "chennai", "kolkata", "delhi", "bangalore", "goa", "kerala"].find?
    (fun l => strContains userL l)).map pyTitle
  let region := (["arabian sea", "bay of bengal", "indian ocean"].find?
    (fun r => strContains userL r)).map pyTitle
  match region with
  | some r => some r
  | none => city

/-- Lines 200–206: depth band from the user text. -/
def detectDepthRange (userL : String) : Option String :=
  if strContains userL "surface" then some "surface"
  else if strContains userL "deep" then some "deep"
  else if strContains userL "profile" then some "profile"
  else none

/-- `_extract_query_metadata(sql_query, user_query)`. -/
def extractQueryMetadata (sqlQuery userQuery : String) : QueryMetadata :=
  let sqlL := pyLower sqlQuery
  let userL := pyLower userQuery
  let qt := detectQueryType sqlL
  { query_type := qt.1
    location := detectLocation userL
    parameters := detectParameters userL
    depth_range := detectDepthRange userL
    time_constraint := false
    spatial_query := qt.2
    errMsg := none }

/-- Modelled from the claim's own words (for comparison with `detectQueryType`):
category is `profile` only when the query orders by the depth column ASCENDING, and
`float_specific` only when the query FILTERS by a float identifier (here: a `where`
clause mentioning `float_id`). -/
def specCategoryClaim (sqlL : String) : String :=
  if strContains sqlL "order by pressure_dbar asc" then "profile"
  else if strContains sqlL "order by date_time" then "time_series"
  else if strContains sqlL "st_dwithin" || strContains sqlL "st_distance" then "spatial"
  else if strContains sqlL "where" && strContains sqlL "float_id" then "float_specific"
  else "general"

/-- The amended claim's category chain: plain substring tests, direction-insensitive
ordering checks, and mere mention (not filtering) of the float-identifier column;
the Boolean is the spatial flag. -/
def specCategoryAmended (sqlL : String) : String × Bool :=
  if strContains sqlL "order by pressure_dbar" then ("profile", false)
  else if strContains sqlL "order by date_time" then ("time_series", false)
  else if strContains sqlL "st_dwithin" || strContains sqlL "st_distance" then ("spatial", true)
  else if strContains sqlL "float_id" then ("float_specific", false)
  else ("general", false)

/-! ## DataFrames, `fetch_data_from_db`, and the data-summary helpers -/

/-- A pandas DataFrame, reduced to what the pipeline inspects: the row count
(`len(df)`), and named columns of rationals.  Timestamp columns are carried as numbers;
their string formatting (`_get_date_range`) is presentation plumbing no claim touches
and is not modelled. -/
structure DataFrame where
  nrows : Nat
  cols : List (String × List ℚ)
  deriving Repr, DecidableEq

/-- `df.columns`. -/
def DataFrame.columnNames (df : DataFrame) : List String :=
  df.cols.map Prod.fst

/-- The `column_mapping` rename of `fetch_data_from_db` (lines 329–340 of
lightweight_plot_generator.py): lowercase database names to capitalized ones.
Any other column name is left unchanged (pandas `rename`). -/
def renameColumn (s : String) : String :=
  if s = "float_id" then "Float_ID"
  else if s = "latitude" then "Latitude"
  else if s = "longitude" then "Longitude"
  else if s = "pressure_dbar" then "Pressure_dbar"
  else if s = "temperature_celsius" then "Temperature_Celsius"
  else if s = "salinity_psu" then "Salinity_PSU"
  else if s = "date_time" then "Date_Time"
  else s

/-- `df.rename(columns=column_mapping)`. -/
def renameDf (df : DataFrame) : DataFrame :=
  ⟨df.nrows, df.cols.map (fun c => (renameColumn c.1, c.2))⟩

/-- `_create_mock_data` (lines 367–393): 500 rows with the capitalized column names.
The numeric contents are seeded pseudorandom draws; no claim depends on them (the
summary helpers never read capitalized columns), so the value lists are left empty. -/
def mockDataFrame : DataFrame :=
  ⟨500, [("Float_ID", []), ("Latitude", []), ("Longitude", []), ("Pressure_dbar", []),
         ("Temperature_Celsius", []), ("Salinity_PSU", []), ("Date_Time", [])]⟩

/-- `fetch_data_from_db(sql_query)`: the whole body is inside try/except — a successful
DB round-trip yields the renamed frame, any database error yields the mock frame.  The
`dbResult` parameter is the opaque outcome of the psycopg2/pandas calls; the SQL text
itself does not influence the embedded control flow. -/
def fetchDataFromDb (dbResult : Except String DataFrame) : DataFrame :=
  match dbResult with
  | .ok raw => renameDf raw
  | .error _ => mockDataFrame

/-- Values of a named column (first match), `[]` when the column is absent. -/
def colValues (df : DataFrame) (name : String) : List ℚ :=
  ((df.cols.find? (fun c => c.1 = name)).map Prod.snd).getD []

/-- `series.min()`; pandas yields NaN on an empty series — the pipeline only builds
summaries for nonempty frames, and every claim lands in the fallback branch, so the
empty case is given the placeholder 0. -/
def listMin : List ℚ → ℚ
  | [] => 0
  | x :: r => r.foldl min x

/-- `series.max()` (same conventions as `listMin`). -/
def listMax : List ℚ → ℚ
  | [] => 0
  | x :: r => r.foldl max x

/-- `series.mean()` (same conventions as `listMin`). -/
def listMean (l : List ℚ) : ℚ :=
  if l.length = 0 then 0 else l.sum / l.length

/-- `_get_geographic_bounds` (lightweight_pipeline.py, lines 170–182):
(north, south, east, west), with the fixed fallback when either column is missing. -/
def getGeographicBounds (df : DataFrame) : ℚ × ℚ × ℚ × ℚ :=
  if "Latitude" ∈ df.columnNames ∧ "Longitude" ∈ df.columnNames then
    (listMax (colValues df "Latitude"), listMin (colValues df "Latitude"),
     listMax (colValues df "Longitude"), listMin (colValues df "Longitude"))
  else (20, 18, 74, 71)

/-- `_get_depth_range` (lines 184–194): looks up the LOWERCASE column name
`pressure_dbar`; `(surface, bottom)` with fallback `(0, 2000)`. -/
def getDepthRange (df : DataFrame) : ℚ × ℚ :=
  if "pressure_dbar" ∈ df.columnNames then
    (listMin (colValues df "pressure_dbar"), listMax (colValues df "pressure_dbar"))
  else (0, 2000)

/-- `_get_temp_range` (lines 196–207): looks up the LOWERCASE column name
`temperature_celsius`; `(min, max, mean)` with fallback `(2, 30, 15)`. -/
def getTempRange (df : DataFrame) : ℚ × ℚ × ℚ :=
  if "temperature_celsius" ∈ df.columnNames then
    (listMin (colValues df "temperature_celsius"), listMax (colValues df "temperature_celsius"),
     listMean (colValues df "temperature_celsius"))
  else (2, 30, 15)

/-- `_get_salinity_range` (lines 209–222): looks up the LOWERCASE column name
`salinity_psu` and additionally requires a nonempty column (the `dropna` is the identity
in this ℚ model); fallback `(33, 37, 35)`. -/
def getSalinityRange (df : DataFrame) : ℚ × ℚ × ℚ :=
  if "salinity_psu" ∈ df.columnNames ∧ colValues df "salinity_psu" ≠ [] then
    (listMin (colValues df "salinity_psu"), listMax (colValues df "salinity_psu"),
     listMean (colValues df "salinity_psu"))
  else (33, 37, 35)

/-- The `data_summary` dict assembled in `process_user_query` (lines 83–91); the
no-data response builds one with only `total_records`, hence the `Option` fields. -/
structure DataSummary where
  data_shape : Option (Nat × Nat) := none
  total_records : Nat := 0
  geographic_bounds : Option (ℚ × ℚ × ℚ × ℚ) := none
  depth_range : Option (ℚ × ℚ) := none
  temp_range : Option (ℚ × ℚ × ℚ) := none
  salinity_range : Option (ℚ × ℚ × ℚ) := none
  deriving Repr, DecidableEq

/-- The full summary built for a nonempty frame. -/
def buildDataSummary (df : DataFrame) : DataSummary :=
  { data_shape := some (df.nrows, df.cols.length)
    total_records := df.nrows
    geographic_bounds := some (getGeographicBounds df)
    depth_range := some (getDepthRange df)
    temp_range := some (getTempRange df)
    salinity_range := some (getSalinityRange df) }

/-! ## The orchestration pipeline  (lightweight_pipeline.py) -/

/-- A chunk of ≤ 3 characters at a time (helper for thousands separators). -/
def chunk3 : List Char → List (List Char)
  | [] => []
  | a :: rest => (a :: rest.take 2) :: chunk3 (rest.drop 2)
termination_by l => l.length
decreasing_by simp [List.length_drop]; omega

/-- Python `f"{n:,}"`: decimal digits grouped in threes with commas. -/
def commaFormat (n : Nat) : String :=
  String.mk ((List.intercalate [','] (chunk3 (toString n).data.reverse)).reverse)

/-- One per-chart outcome dict, as produced by the plotting functions and consumed
opaquely by `_package_complete_response`. -/
structure PlotOutcome where
  plot_type : String := ""
  description : String := ""
  saved_file : Option String := none
  saved_files : Option (List String) := none
  deriving Repr, DecidableEq

/-- The dict returned by `generate_plots_from_data`, reduced to the keys the pipeline
reads.  `all_saved_files := none` models the key being absent (as in the inline
plot-failure fallback of `process_user_query`, lines 73–79). -/
structure PlotResult where
  success : Bool
  error : Option String := none
  plots : List PlotOutcome := []
  classification_scores : ScoreMap := []
  chosen_plots : List String := []
  all_saved_files : Option (List String) := none
  deriving Repr, DecidableEq

/-- `technical_details` of the complete response. -/
structure TechDetails where
  sql_query : String
  processing_time : ℚ
  data_shape : Option (Nat × Nat)
  system_type : String
  deriving Repr, DecidableEq

/-- The response dict returned by `process_user_query`.  The three constructors
(no-data, error, complete) populate different key sets; a key absent from a given
dict is an `Option` field left at `none` (or `[]` for the always-list keys). -/
structure PipelineResponse where
  success : Bool
  user_query : String
  chat_response : String
  plots : List PlotOutcome := []
  saved_files : Option (List String) := none
  plot_metadata : Option (ScoreMap × List String) := none
  data_summary : Option DataSummary := none
  sql_metadata : Option QueryMetadata := none
  error : Option String := none
  suggestions : List String := []
  technical_details : Option TechDetails := none
  timestamp : Option String := none
  deriving Repr, DecidableEq

/-- The `chat_response` template of `_handle_no_data_response` (lines 226–239). -/
def noDataNarrative (q : String) : String :=
  "I understand you're looking for ocean data! 🌊 \n\nWhile I couldn't find specific measurements for \"" ++ q ++ "\", I can help you explore our ocean database.\n\n🗺️ **Available Data**: Arabian Sea, Bay of Bengal, Indian Ocean\n📊 **Parameters**: Temperature, Salinity, Depth, Location\n📅 **Coverage**: Recent Argo float measurements\n\nTry these queries:\n• \"Show temperature profile near Mumbai\"\n• \"3D ocean data visualization\"  \n• \"Temperature map of Arabian Sea\"\n\nWould you like me to show you what data is available in a specific region?"

/-- The `chat_response` template of `_handle_error_response` (lines 257–268): the
user-facing remediation message. -/
def errorNarrative (q : String) : String :=
  "I encountered a technical issue while processing: \"" ++ q ++ "\" 🌊\n\n🔧 **System Status**: Running in lightweight mode (no torch required!)\n📊 **Capabilities**: Plotting and visualization still available\n🔄 **Suggestion**: Try rephrasing your query or use simpler terms\n\nExamples that work well:\n• \"temperature profile mumbai\"\n• \"ocean data 3d view\"\n• \"salinity map\"\n\nThe lightweight system is designed to handle most ocean data queries efficiently!"

/-- `_generate_fallback_response` (lines 116–154), used when the chatbot collaborator
is unavailable. -/
def generateFallbackResponse (userQuery : String) (s : DataSummary) : String :=
  let ql := pyLower userQuery
  if strContains ql "profile" then
    "Great question! 🌊 The water profile shows the vertical structure of ocean properties.\n\nFrom the " ++ commaFormat s.total_records ++ " measurements I found:\n\n🔥 **Surface Waters**: Warm from solar heating\n🌡️ **Thermocline**: Rapid temperature drop with depth  \n❄️ **Deep Waters**: Cold and stable\n\nThis vertical structure is crucial for marine ecosystems and ocean circulation! The profile chart shows exactly how temperature and salinity change as you dive deeper."
  else if strContains ql "mumbai" then
    "Excellent choice! 🌊 Mumbai's ocean data from the Arabian Sea shows fascinating patterns.\n\nFrom " ++ commaFormat s.total_records ++ " measurements in this region:\n\n🗺️ **Location**: Arabian Sea coastal waters near Mumbai\n🌡️ **Temperature Range**: Typically 25-29°C at surface, cooling with depth\n🧂 **Salinity**: Around 34-36 PSU, influenced by monsoon freshwater\n📊 **Depth Coverage**: From surface to deep ocean layers\n\nThe data reveals the classic tropical ocean structure with distinct temperature layers!"
  else
    "Here's your ocean data analysis! 🌊\n\nI've processed " ++ commaFormat s.total_records ++ " measurements to show you the patterns in this region.\n\nThe visualizations reveal important ocean characteristics:\n• Temperature and salinity distributions\n• Vertical ocean structure  \n• Geographic patterns\n• Depth-dependent changes\n\nEach plot tells a different part of the ocean's story! 🌐"

/-- `_handle_no_data_response` (lines 224–253). -/
def handleNoDataResponse (q : String) (meta : QueryMetadata) : PipelineResponse :=
  { success := false
    user_query := q
    chat_response := noDataNarrative q
    plots := []
    data_summary := some { total_records := 0 }
    sql_metadata := some meta
    suggestions := ["Show available data regions",
                    "Temperature data near major cities",
                    "Recent ocean measurements"] }

/-- `_handle_error_response` (lines 255–281). -/
def handleErrorResponse (q e : String) : PipelineResponse :=
  { success := false
    user_query := q
    chat_response := errorNarrative q
    plots := []
    error := some e
    suggestions := ["Use simpler query terms",
                    "Try location-based queries",
                    "Ask for specific plot types"] }

/-- The saved-file collection of `_package_complete_response` (lines 287–300). -/
def collectSavedFiles (pr : PlotResult) : List String :=
  if pr.success then
    match pr.all_saved_files with
    | some l => l
    | none =>
      pr.plots.foldl (fun acc pl =>
        match pl.saved_file with
        | some f => acc ++ [f]
        | none =>
          match pl.saved_files with
          | some fs => acc ++ fs
          | none => acc) []
  else []

/-- `_package_complete_response` (lines 283–326).  Note it always sets
`success := true`, even when the plot stage failed. -/
def packageCompleteResponse (q sqlQ : String) (meta : QueryMetadata) (summary : DataSummary)
    (pr : PlotResult) (chat : String) (elapsed : ℚ) (ts : String) : PipelineResponse :=
  { success := true
    user_query := q
    chat_response := chat
    plots := if pr.success then pr.plots else []
    saved_files := some (collectSavedFiles pr)
    plot_metadata := some (pr.classification_scores, pr.chosen_plots)
    data_summary := some summary
    sql_metadata := some meta
    technical_details := some { sql_query := sqlQ, processing_time := elapsed,
                                data_shape := summary.data_shape,
                                system_type := "lightweight (scikit-learn)" }
    suggestions := ["How does this compare to other regions?",
                    "Can you show different visualizations?",
                    "What drives these ocean patterns?"]
    timestamp := some ts }

/-- `generate_sql_query` (sql_query_generator.py, lines 49–115).  The whole LLM call is
inside try/except: on success the cleaned SQL text is analysed by
`_extract_query_metadata`; on any exception the fixed fallback query and metadata are
returned.  `llmResult` is the opaque collaborator outcome, taken after the
regex-based `_clean_sql_query` string cleanup (pure string plumbing that no claim
inspects). -/
def generateSqlQuery (llmResult : Except String String) (userQuery : String) :
    String × QueryMetadata :=
  match llmResult with
  | .ok sqlText => (sqlText, extractQueryMetadata sqlText userQuery)
  | .error e =>
    ("SELECT * FROM argo_floats ORDER BY date_time DESC LIMIT 1000;",
     { query_type := "fallback", location := none,
       parameters := ["temperature", "salinity"], errMsg := some e })

/-- The opaque collaborators of one `process_user_query` invocation.  `initOk = false`
models the constructor's fallback mode (`sql_generator = None`, `chatbot = None`).
`chatOutcome` is the only collaborator whose exception is NOT caught locally (the
plot stage has its own `try`, fetch and SQL generation catch internally), so it is the
route by which an unanticipated exception reaches the orchestrator boundary.  `elapsed`
and `timestamp` stand for the wall-clock reads. -/
structure Collaborators where
  initOk : Bool
  llmResult : Except String String
  dbResult : Except String DataFrame
  plotOutcome : Except String PlotResult
  chatOutcome : Except String String
  elapsed : ℚ
  timestamp : String

/-- Step 1 of `process_user_query` (lines 48–56). -/
def pipelineStep1 (C : Collaborators) (q : String) : String × QueryMetadata :=
  if C.initOk then generateSqlQuery C.llmResult q
  else ("SELECT * FROM argo_floats LIMIT 1000;",
        { query_type := "fallback", location := some "Mumbai" })

/-- Step 3 with its inline `try` (lines 67–79): a raising plot stage is replaced by the
recorded-error fallback dict. -/
def pipelinePlotStage (C : Collaborators) : PlotResult :=
  match C.plotOutcome with
  | .ok r => r
  | .error e =>
    { success := false, error := some e, plots := [],
      classification_scores := [], chosen_plots := [] }

/-- The body of the outer `try` of `process_user_query` (lines 47–110), in the
exception monad: `.error` is an exception propagating to the outer `except`.  Written
without `let` bindings, in sequence: step 1 builds the query and metadata, step 2
fetches (an empty frame short-circuits to the no-data response), step 3 is the guarded
plot stage, step 4 builds the summary and narrative (the chatbot call is the one
collaborator whose exception is NOT caught locally), step 5 packages. -/
def pipelineBody (C : Collaborators) (q : String) : Except String PipelineResponse :=
  if (fetchDataFromDb C.dbResult).nrows = 0 then
    .ok (handleNoDataResponse q (pipelineStep1 C q).2)
  else
    match (if C.initOk then C.chatOutcome
           else .ok (generateFallbackResponse q (buildDataSummary (fetchDataFromDb C.dbResult)))) with
    | .ok chat =>
      .ok (packageCompleteResponse q (pipelineStep1 C q).1 (pipelineStep1 C q).2
        (buildDataSummary (fetchDataFromDb C.dbResult)) (pipelinePlotStage C) chat
        C.elapsed C.timestamp)
    | .error e => .error e

/-- `process_user_query(user_query)` (lines 38–114): the outer try/except converts any
escaped exception into `_handle_error_response`. -/
def processUserQuery (C : Collaborators) (q : String) : PipelineResponse :=
  match pipelineBody C q with
  | .ok r => r
  | .error e => handleErrorResponse q e

/-! ## Infrastructure lemmas about score maps and the stable sort -/

/-- All scores of a map lie in the unit interval. -/
def scoresIn01 (m : ScoreMap) : Prop :=
  ∀ kv ∈ m, 0 ≤ kv.2 ∧ kv.2 ≤ 1

lemma pyMax_eq_max (a b : ℚ) : pyMax a b = max a b :=
  (max_def a b).symm

lemma setV_keys (m : ScoreMap) (k : String) (v : ℚ) :
    (setV m k v).map Prod.fst = m.map Prod.fst := by
  induction m with
  | nil => rfl
  | cons kv rest ih =>
    simp only [setV]
    split <;> simp_all

lemma mem_setV {m : ScoreMap} {k : String} {v : ℚ} {x : String × ℚ}
    (hx : x ∈ setV m k v) : x ∈ m ∨ x = (k, v) := by
  induction m with
  | nil => simp [setV] at hx
  | cons kv rest ih =>
    rcases kv with ⟨a, b⟩
    simp only [setV] at hx
    split at hx
    · rename_i heq
      rcases List.mem_cons.1 hx with h | h
      · right; rw [h, heq]
      · left; exact List.mem_cons_of_mem _ h
    · rcases List.mem_cons.1 hx with h | h
      · left; rw [h]; exact List.mem_cons_self _ _
      · rcases ih h with h' | h'
        · left; exact List.mem_cons_of_mem _ h'
        · right; exact h'

lemma mem_setV_ne {m : ScoreMap} {k k' : String} {v v' : ℚ}
    (hm : (k, v) ∈ m) (hne : k ≠ k') : (k, v) ∈ setV m k' v' := by
  induction m with
  | nil => simp at hm
  | cons kv rest ih =>
    simp only [setV]
    rcases List.mem_cons.1 hm with h | h
    · split
      · rename_i heq
        exact absurd (by rw [← h] at heq; exact heq) hne
      · rw [← h]; exact List.mem_cons_self _ _
    · split
      · exact List.mem_cons_of_mem _ h
      · exact List.mem_cons_of_mem _ (ih h)

lemma setV_mem_self {m : ScoreMap} {k : String} (v : ℚ)
    (hk : k ∈ m.map Prod.fst) : (k, v) ∈ setV m k v := by
  induction m with
  | nil => simp at hk
  | cons kv rest ih =>
    simp only [setV]
    rcases List.mem_map.1 hk with ⟨x, hx, hxk⟩
    rcases List.mem_cons.1 hx with h | h
    · have : kv.1 = k := by rw [h] at hxk; exact hxk
      rw [if_pos this, ← this]
      exact List.mem_cons_self _ _
    · split
      · rename_i heq
        rw [← heq]; exact List.mem_cons_self _ _
      · exact List.mem_cons_of_mem _ (ih (List.mem_map.2 ⟨x, h, hxk⟩))

lemma getD_mem (m : ScoreMap) (k : String) :
    getD m k = 0 ∨ (k, getD m k) ∈ m := by
  induction m with
  | nil => left; rfl
  | cons kv rest ih =>
    rcases kv with ⟨a, b⟩
    simp only [getD]
    split
    · rename_i h
      right; rw [← h]; exact List.mem_cons_self _ _
    · rcases ih with h | h
      · left; exact h
      · right; exact List.mem_cons_of_mem _ h

lemma getD_bounds {m : ScoreMap} (h : scoresIn01 m) (k : String) :
    0 ≤ getD m k ∧ getD m k ≤ 1 := by
  rcases getD_mem m k with h0 | hmem
  · rw [h0]; norm_num
  · exact h _ hmem

lemma scoresIn01_setV {m : ScoreMap} {k : String} {v : ℚ}
    (h : scoresIn01 m) (h0 : 0 ≤ v) (h1 : v ≤ 1) : scoresIn01 (setV m k v) := by
  intro kv hkv
  rcases mem_setV hkv with h' | h'
  · exact h _ h'
  · rw [h']; exact ⟨h0, h1⟩

lemma scoresIn01_applyRule {s : ScoreMap} (h : scoresIn01 s) (c : Bool)
    {k1 k2 k3 : String} {v1 v2 v3 : ℚ}
    (h1 : 0 ≤ v1 ∧ v1 ≤ 1) (h2 : 0 ≤ v2 ∧ v2 ≤ 1) (h3 : 0 ≤ v3 ∧ v3 ≤ 1) :
    scoresIn01 (applyRule s c k1 v1 k2 v2 k3 v3) := by
  unfold applyRule
  split
  · exact scoresIn01_setV (scoresIn01_setV (scoresIn01_setV h h1.1 h1.2) h2.1 h2.2) h3.1 h3.2
  · exact h

lemma scoresIn01_applyMaxRule {s : ScoreMap} (h : scoresIn01 s) (c : Bool)
    {k1 k2 k3 : String} {v1 v2 v3 : ℚ}
    (h1 : 0 ≤ v1 ∧ v1 ≤ 1) (h2 : 0 ≤ v2 ∧ v2 ≤ 1) (h3 : 0 ≤ v3 ∧ v3 ≤ 1) :
    scoresIn01 (applyMaxRule s c k1 v1 k2 v2 k3 v3) := by
  unfold applyMaxRule
  simp only [pyMax_eq_max]
  split
  · have hs1 : scoresIn01 (setV s k1 (max (getD s k1) v1)) :=
      scoresIn01_setV h (le_max_of_le_right h1.1)
        (max_le (getD_bounds h k1).2 h1.2)
    have hs2 : scoresIn01 (setV _ k2 (max (getD (setV s k1 (max (getD s k1) v1)) k2) v2)) :=
      scoresIn01_setV hs1 (le_max_of_le_right h2.1)
        (max_le (getD_bounds hs1 k2).2 h2.2)
    exact scoresIn01_setV hs2 (le_max_of_le_right h3.1)
      (max_le (getD_bounds hs2 k3).2 h3.2)
  · exact h

lemma scoresIn01_init :
    scoresIn01 [("profile", (0:ℚ)), ("time_series", 0), ("map", 0), ("ts_diagram", 0),
                ("3d_scatter", 0)] := by
  intro kv hkv
  simp only [List.mem_cons, List.not_mem_nil, or_false] at hkv
  rcases hkv with rfl | rfl | rfl | rfl | rfl <;> norm_num

lemma intelligentScores_in01 (pl : String) : scoresIn01 (intelligentScores pl) := by
  unfold intelligentScores
  apply scoresIn01_applyMaxRule _ _ (by norm_num) (by norm_num) (by norm_num)
  apply scoresIn01_applyRule _ _ (by norm_num) (by norm_num) (by norm_num)
  apply scoresIn01_applyRule _ _ (by norm_num) (by norm_num) (by norm_num)
  apply scoresIn01_applyRule _ _ (by norm_num) (by norm_num) (by norm_num)
  apply scoresIn01_applyRule _ _ (by norm_num) (by norm_num) (by norm_num)
  apply scoresIn01_applyRule _ _ (by norm_num) (by norm_num) (by norm_num)
  exact scoresIn01_init

lemma mlScores_in01 {p : ℚ} (h0 : 0 ≤ p) (h1 : p ≤ 1) : scoresIn01 (mlScores p) := by
  intro kv hkv
  simp only [mlScores, List.mem_cons, List.not_mem_nil, or_false] at hkv
  rcases hkv with rfl | rfl | rfl | rfl | rfl <;> constructor <;> norm_num [h0, h1]

lemma le_foldl_max_init (rest : ScoreMap) :
    ∀ (v c : ℚ), c ≤ v → c ≤ rest.foldl (fun acc kv => pyMax acc kv.2) v := by
  simp only [pyMax_eq_max]
  induction rest with
  | nil => intro v c h; exact h
  | cons kv r ih =>
    intro v c h
    simp only [List.foldl_cons]
    exact ih _ _ (le_trans h (le_max_left _ _))

lemma le_foldl_max_of_mem (x : String × ℚ) (rest : ScoreMap) :
    ∀ (v : ℚ), x ∈ rest → x.2 ≤ rest.foldl (fun acc kv => pyMax acc kv.2) v := by
  simp only [pyMax_eq_max]
  induction rest with
  | nil => intro v hx; simp at hx
  | cons kv r ih =>
    intro v hx
    simp only [List.foldl_cons]
    rcases List.mem_cons.1 hx with h | h
    · exact le_foldl_max_init r (max v kv.2) x.2 (by rw [h]; exact le_max_right _ _)
    · exact ih (max v kv.2) h

lemma le_maxValues_of_mem {m : ScoreMap} {x : String × ℚ} (hx : x ∈ m) :
    x.2 ≤ maxValues m := by
  cases m with
  | nil => simp at hx
  | cons kv rest =>
    rcases List.mem_cons.1 hx with h | h
    · exact le_foldl_max_init rest kv.2 x.2 (by rw [h])
    · exact le_foldl_max_of_mem x rest kv.2 h

lemma foldl_max_cases (rest : ScoreMap) :
    ∀ (v c : ℚ), c ≤ rest.foldl (fun acc kv => pyMax acc kv.2) v →
      c ≤ v ∨ ∃ kv ∈ rest, c ≤ kv.2 := by
  simp only [pyMax_eq_max]
  induction rest with
  | nil => intro v c h; left; exact h
  | cons kv r ih =>
    intro v c h
    simp only [List.foldl_cons] at h
    rcases ih _ _ h with h' | ⟨x, hx, hcx⟩
    · rcases le_max_iff.1 h' with h'' | h''
      · left; exact h''
      · right; exact ⟨kv, List.mem_cons_self _ _, h''⟩
    · right; exact ⟨x, List.mem_cons_of_mem _ hx, hcx⟩

lemma exists_mem_ge_maxValues {m : ScoreMap} (hm : m ≠ []) {c : ℚ}
    (hc : c ≤ maxValues m) : ∃ x ∈ m, c ≤ x.2 := by
  cases m with
  | nil => exact absurd rfl hm
  | cons kv rest =>
    rcases foldl_max_cases rest kv.2 c hc with h | ⟨x, hx, hcx⟩
    · exact ⟨kv, List.mem_cons_self _ _, h⟩
    · exact ⟨x, List.mem_cons_of_mem _ hx, hcx⟩

lemma orderedInsert_head_ge (x : String × ℚ) (l : ScoreMap) :
    ∃ z, (List.orderedInsert (fun a b => b.2 ≤ a.2) x l).head? = some z ∧
      x.2 ≤ z.2 ∧ ∀ y, l.head? = some y → y.2 ≤ z.2 := by
  cases l with
  | nil => exact ⟨x, rfl, le_refl _, by intro y hy; simp at hy⟩
  | cons b bs =>
    by_cases h : b.2 ≤ x.2
    · refine ⟨x, ?_, le_refl _, ?_⟩
      · simp [List.orderedInsert, h]
      · intro y hy
        have hb : b = y := by simpa using hy
        rw [← hb]; exact h
    · refine ⟨b, ?_, le_of_not_le h, ?_⟩
      · simp [List.orderedInsert, h]
      · intro y hy
        have hb : b = y := by simpa using hy
        rw [← hb]

lemma sortDesc_head_ge {l : ScoreMap} {x : String × ℚ} (hx : x ∈ l) :
    ∃ z, (sortDesc l).head? = some z ∧ x.2 ≤ z.2 := by
  induction l with
  | nil => simp at hx
  | cons a as ih =>
    have hsort : sortDesc (a :: as) =
        List.orderedInsert (fun a b => b.2 ≤ a.2) a (sortDesc as) := rfl
    rcases List.mem_cons.1 hx with h | h
    · obtain ⟨z, hz, hxz, -⟩ := orderedInsert_head_ge a (sortDesc as)
      exact ⟨z, hsort ▸ hz, h ▸ hxz⟩
    · obtain ⟨z', hz', hxz'⟩ := ih h
      obtain ⟨z, hz, -, hall⟩ := orderedInsert_head_ge a (sortDesc as)
      exact ⟨z, hsort ▸ hz, le_trans hxz' (hall _ hz')⟩

lemma mem_sortDesc {l : ScoreMap} {x : String × ℚ} :
    x ∈ sortDesc l ↔ x ∈ l :=
  List.mem_insertionSort _

lemma length_sortDesc (l : ScoreMap) : (sortDesc l).length = l.length :=
  List.length_insertionSort _ _

lemma keys_map_pair (L : List String) (f : String → ℚ) :
    (L.map (fun l => (l, f l))).map Prod.fst = L := by
  induction L with
  | nil => rfl
  | cons a as ih => simp_all

/-! ## Lemmas about the classifier stages -/

lemma blendedScores_keys (prompt : String) (p : ℚ) :
    (blendedScores prompt p).map Prod.fst = plotCategories :=
  keys_map_pair _ _

lemma blendedScores_in01 (prompt : String) {p : ℚ} (h0 : 0 ≤ p) (h1 : p ≤ 1) :
    scoresIn01 (blendedScores prompt p) := by
  intro kv hkv
  simp only [blendedScores, List.mem_map] at hkv
  obtain ⟨l, -, rfl⟩ := hkv
  have hintel := getD_bounds (intelligentScores_in01 (pyLower prompt)) l
  have hml := getD_bounds (mlScores_in01 h0 h1) l
  rw [pyMax_eq_max]
  constructor
  · exact le_max_of_le_left hintel.1
  · exact max_le hintel.2 (by nlinarith [hml.1, hml.2])

lemma flooredScores_keys (prompt : String) (p : ℚ) :
    (flooredScores prompt p).map Prod.fst = plotCategories := by
  unfold flooredScores
  split
  · rw [setV_keys, setV_keys, setV_keys, blendedScores_keys]
  · exact blendedScores_keys prompt p

lemma flooredScores_in01 (prompt : String) {p : ℚ} (h0 : 0 ≤ p) (h1 : p ≤ 1) :
    scoresIn01 (flooredScores prompt p) := by
  unfold flooredScores
  split
  · exact scoresIn01_setV (scoresIn01_setV (scoresIn01_setV
      (blendedScores_in01 prompt h0 h1) (by norm_num) (by norm_num))
      (by norm_num) (by norm_num)) (by norm_num) (by norm_num)
  · exact blendedScores_in01 prompt h0 h1

lemma flooredScores_length (prompt : String) (p : ℚ) :
    (flooredScores prompt p).length = 5 := by
  have h := congrArg List.length (flooredScores_keys prompt p)
  simpa [plotCategories] using h

lemma flooredScores_ne_nil (prompt : String) (p : ℚ) :
    flooredScores prompt p ≠ [] := by
  intro h
  have := flooredScores_length prompt p
  rw [h] at this
  simp at this

/-- After the floor some score is at least 0.4: either the floor fired (and
`3d_scatter` holds 0.8) or the pre-floor maximum was already ≥ 0.4. -/
lemma flooredScores_exists_ge (prompt : String) (p : ℚ) :
    ∃ kv ∈ flooredScores prompt p, 2/5 ≤ kv.2 := by
  unfold flooredScores
  split
  · refine ⟨("3d_scatter", 4/5), ?_, by norm_num⟩
    apply mem_setV_ne _ (by decide)
    apply mem_setV_ne _ (by decide)
    apply setV_mem_self
    rw [blendedScores_keys]
    decide
  · rename_i h
    exact exists_mem_ge_maxValues
      (by intro hnil
          have := congrArg List.length (blendedScores_keys prompt p)
          rw [hnil] at this
          simp [plotCategories] at this)
      (le_of_not_lt h)

lemma augmentStep_fst_length (acc : List String × ScoreMap) (kv : String × ℚ) :
    (augmentStep acc kv).1.length ≤ acc.1.length + 1 := by
  unfold augmentStep
  split
  · simp
  · exact Nat.le_succ _

lemma augmentFold_length (L : ScoreMap) :
    ∀ acc : List String × ScoreMap,
      (L.foldl augmentStep acc).1.length ≤ acc.1.length + L.length := by
  induction L with
  | nil => intro acc; simp
  | cons kv r ih =>
    intro acc
    simp only [List.foldl_cons, List.length_cons]
    have h1 := ih (augmentStep acc kv)
    have h2 := augmentStep_fst_length acc kv
    omega

lemma augmentFold_ne_nil (L : ScoreMap) :
    ∀ acc : List String × ScoreMap, acc.1 ≠ [] → (L.foldl augmentStep acc).1 ≠ [] := by
  induction L with
  | nil => intro acc h; exact h
  | cons kv r ih =>
    intro acc h
    simp only [List.foldl_cons]
    refine ih _ ?_
    unfold augmentStep
    split
    · simp
    · exact h

lemma augmentFold_mem (L : ScoreMap) :
    ∀ (acc : List String × ScoreMap) (x : String),
      x ∈ (L.foldl augmentStep acc).1 → x ∈ acc.1 ∨ ∃ kv ∈ L, kv.1 = x := by
  induction L with
  | nil => intro acc x hx; left; exact hx
  | cons kv r ih =>
    intro acc x hx
    simp only [List.foldl_cons] at hx
    rcases ih _ _ hx with h | ⟨kv', hkv', hx'⟩
    · unfold augmentStep at h
      split at h
      · rcases List.mem_append.1 h with h' | h'
        · left; exact h'
        · right
          refine ⟨kv, List.mem_cons_self _ _, ?_⟩
          have hx1 : x = kv.1 := by simpa using h'
          exact hx1.symm
      · left; exact h
    · right; exact ⟨kv', List.mem_cons_of_mem _ hkv', hx'⟩

lemma augmentFold_snd_keys (L : ScoreMap) :
    ∀ acc : List String × ScoreMap,
      (L.foldl augmentStep acc).2.map Prod.fst = acc.2.map Prod.fst := by
  induction L with
  | nil => intro acc; rfl
  | cons kv r ih =>
    intro acc
    simp only [List.foldl_cons]
    rw [ih]
    unfold augmentStep
    split
    · exact setV_keys _ _ _
    · rfl

lemma augmentFold_snd_in01 (L : ScoreMap) :
    ∀ acc : List String × ScoreMap, scoresIn01 acc.2 →
      scoresIn01 (L.foldl augmentStep acc).2 := by
  induction L with
  | nil => intro acc h; exact h
  | cons kv r ih =>
    intro acc h
    simp only [List.foldl_cons]
    refine ih _ ?_
    unfold augmentStep
    split
    · apply scoresIn01_setV h
      · rw [pyMax_eq_max]
        exact le_max_of_le_right (by norm_num)
      · rw [pyMax_eq_max]
        exact max_le (getD_bounds h _).2 (by norm_num)
    · exact h

lemma selectStage1_subset {e : ScoreMap} {t : ℚ} {l : String}
    (hl : l ∈ selectStage1 e t) : l ∈ e.map Prod.fst := by
  simp only [selectStage1, List.mem_map] at hl
  obtain ⟨kv, hkv, rfl⟩ := hl
  exact List.mem_map.2 ⟨kv, (List.mem_filter.1 hkv).1, rfl⟩

lemma selectStage1_length_le (e : ScoreMap) (t : ℚ) :
    (selectStage1 e t).length ≤ e.length := by
  simp only [selectStage1, List.length_map]
  exact List.length_filter_le _ _

/-- Soundness of the augment stage: starting from a score map whose keys are the five
chart categories and in which some score reaches 0.4, the chosen-plot list after
lines 212–221 is nonempty, has at most 5 entries, and only mentions the categories. -/
lemma selectStage2_sound (E : ScoreMap) (t : ℚ)
    (hkeys : E.map Prod.fst = plotCategories)
    (hlen5 : E.length = 5)
    (hex : ∃ kv ∈ E, 2/5 ≤ kv.2) :
    (selectStage2 E t).1 ≠ [] ∧ (selectStage2 E t).1.length ≤ 5 ∧
      ∀ l ∈ (selectStage2 E t).1, l ∈ plotCategories := by
  unfold selectStage2
  split
  · rename_i hlt
    refine ⟨?_, ?_, ?_⟩
    · by_cases hc0 : selectStage1 E t = []
      · obtain ⟨kv, hkv, hkv2⟩ := hex
        obtain ⟨z, hz, hz2⟩ := sortDesc_head_ge hkv
        obtain ⟨rest, hrest⟩ : ∃ rest, sortDesc E = z :: rest := by
          cases hsd : sortDesc E with
          | nil => rw [hsd] at hz; simp at hz
          | cons a l =>
            rw [hsd] at hz
            simp only [List.head?_cons, Option.some.injEq] at hz
            exact ⟨l, by rw [hz]⟩
        rw [hrest, hc0]
        show ((z :: rest.take 2).foldl augmentStep ([], E)).1 ≠ []
        show ((rest.take 2).foldl augmentStep (augmentStep ([], E) z)).1 ≠ []
        apply augmentFold_ne_nil
        unfold augmentStep
        rw [if_pos ⟨List.not_mem_nil _, lt_of_lt_of_le (by norm_num)
          (le_trans hkv2 hz2)⟩]
        simp
      · exact augmentFold_ne_nil _ _ hc0
    · refine le_trans (augmentFold_length _ _) ?_
      dsimp only
      have h3 : ((sortDesc E).take 3).length ≤ 3 := List.length_take_le _ _
      omega
    · intro l hl
      rcases augmentFold_mem _ _ _ hl with h | ⟨kv, hkv, rfl⟩
      · exact hkeys ▸ selectStage1_subset h
      · have hmem : kv ∈ E := mem_sortDesc.1 (List.mem_of_mem_take hkv)
        exact hkeys ▸ List.mem_map.2 ⟨kv, hmem, rfl⟩
  · rename_i hge
    refine ⟨?_, ?_, ?_⟩
    · intro h
      dsimp only at h
      rw [h] at hge
      simp at hge
    · exact le_trans (selectStage1_length_le E t) (le_of_eq hlen5)
    · intro l hl
      dsimp only at hl
      exact hkeys ▸ selectStage1_subset hl

lemma selectStage2_snd_keys (E : ScoreMap) (t : ℚ) :
    (selectStage2 E t).2.map Prod.fst = E.map Prod.fst := by
  unfold selectStage2
  split
  · exact augmentFold_snd_keys _ _
  · rfl

lemma selectStage2_snd_in01 (E : ScoreMap) (t : ℚ) (h : scoresIn01 E) :
    scoresIn01 (selectStage2 E t).2 := by
  unfold selectStage2
  split
  · exact augmentFold_snd_in01 _ _ h
  · exact h

lemma selectStage3_of_ne_nil {ce : List String × ScoreMap} (h : ce.1 ≠ []) :
    selectStage3 ce = ce := by
  unfold selectStage3
  rw [if_neg h]

lemma selectStage4_snd (ce : List String × ScoreMap) :
    (selectStage4 ce).2 = ce.2 := by
  unfold selectStage4
  split <;> rfl

lemma selectStage1_nil (t : ℚ) : selectStage1 [] t = [] := rfl

lemma selectStage1_cons_pos {kv : String × ℚ} {rest : ScoreMap} {t : ℚ} (h : t ≤ kv.2) :
    selectStage1 (kv :: rest) t = kv.1 :: selectStage1 rest t := by
  simp [selectStage1, List.filter_cons, h]

lemma selectStage1_cons_neg {kv : String × ℚ} {rest : ScoreMap} {t : ℚ} (h : ¬ t ≤ kv.2) :
    selectStage1 (kv :: rest) t = selectStage1 rest t := by
  simp [selectStage1, List.filter_cons, h]

lemma le_pyMax_left (a b : ℚ) : a ≤ pyMax a b := by
  rw [pyMax_eq_max]; exact le_max_left a b

lemma le_pyMax_right (a b : ℚ) : b ≤ pyMax a b := by
  rw [pyMax_eq_max]; exact le_max_right a b

lemma pyMax_le {a b c : ℚ} (h1 : a ≤ c) (h2 : b ≤ c) : pyMax a b ≤ c := by
  rw [pyMax_eq_max]; exact max_le h1 h2

lemma pyMax_eq_of_le {a b : ℚ} (h : a ≤ b) : pyMax a b = b := by
  unfold pyMax; rw [if_pos h]

lemma sortDesc_cons (x : String × ℚ) (l : ScoreMap) :
    sortDesc (x :: l) = List.orderedInsert (fun a b => b.2 ≤ a.2) x (sortDesc l) := rfl

lemma orderedInsert_cons_of_le {x y : String × ℚ} {l : ScoreMap} (h : y.2 ≤ x.2) :
    List.orderedInsert (fun a b => b.2 ≤ a.2) x (y :: l) = x :: y :: l := by
  simp [List.orderedInsert, h]

/-- Entrywise form of the blend: the rule score of each label combined with its
model score (`p` for `profile`, the literal 0.1 for the rest) scaled by 0.8. -/
lemma blendedScores_eq_explicit (prompt : String) (p : ℚ) :
    blendedScores prompt p =
      [("profile", pyMax (getD (intelligentScores (pyLower prompt)) "profile") (p * (4/5))),
       ("time_series", pyMax (getD (intelligentScores (pyLower prompt)) "time_series") (2/25)),
       ("map", pyMax (getD (intelligentScores (pyLower prompt)) "map") (2/25)),
       ("ts_diagram", pyMax (getD (intelligentScores (pyLower prompt)) "ts_diagram") (2/25)),
       ("3d_scatter", pyMax (getD (intelligentScores (pyLower prompt)) "3d_scatter") (2/25))] := by
  have m1 : getD (mlScores p) "profile" = p := by simp [mlScores, getD]
  have m2 : getD (mlScores p) "time_series" = 1/10 := by simp [mlScores, getD]
  have m3 : getD (mlScores p) "map" = 1/10 := by simp [mlScores, getD]
  have m4 : getD (mlScores p) "ts_diagram" = 1/10 := by simp [mlScores, getD]
  have m5 : getD (mlScores p) "3d_scatter" = 1/10 := by simp [mlScores, getD]
  simp only [blendedScores, plotCategories, List.map_cons, List.map_nil,
    m1, m2, m3, m4, m5]
  norm_num

/-- The blended profile score is at least `0.8 * p`; hence for any model probability
≥ 0.5 (which `predictions[0].max()` always is, over two classes) the blended maximum
is at least 0.4 and the "vague prompt" floor of lines 205–209 can never fire. -/
lemma blendedScores_max_ge (prompt : String) {p : ℚ} (hp : 1/2 ≤ p) :
    2/5 ≤ maxValues (blendedScores prompt p) := by
  have hmem : ("profile",
      pyMax (getD (intelligentScores (pyLower prompt)) "profile") (p * (4/5)))
      ∈ blendedScores prompt p := by
    rw [blendedScores_eq_explicit]
    exact List.mem_cons_self _ _
  refine le_trans ?_ (le_maxValues_of_mem hmem)
  refine le_trans ?_ (le_pyMax_right _ _)
  linarith

lemma flooredScores_eq_blended (prompt : String) {p : ℚ} (hp : 1/2 ≤ p) :
    flooredScores prompt p = blendedScores prompt p := by
  unfold flooredScores
  rw [if_neg (not_lt.2 (blendedScores_max_ge prompt hp))]

/-- Full walk of `classify_prompt` on the keyword-free prompt `"qqq"` at the default
threshold 0.3: only `profile` passes the threshold (its blended score is `0.8 * p ≥
0.4`), and the complementary-plot loop adds nothing because every other score is 0.08,
so a SINGLE plot is returned. -/
lemma classify_qqq_walk {p : ℚ} (hp : 1/2 ≤ p) :
    classifyPrompt "qqq" (3/10) p = (["profile"], blendedScores "qqq" p) := by
  have i1 : getD (intelligentScores (pyLower "qqq")) "profile" = 0 := by decide
  have i2 : getD (intelligentScores (pyLower "qqq")) "time_series" = 0 := by decide
  have i3 : getD (intelligentScores (pyLower "qqq")) "map" = 0 := by decide
  have i4 : getD (intelligentScores (pyLower "qqq")) "ts_diagram" = 0 := by decide
  have i5 : getD (intelligentScores (pyLower "qqq")) "3d_scatter" = 0 := by decide
  have hP : (2:ℚ)/5 ≤ p * (4/5) := by linarith
  have hb : blendedScores "qqq" p =
      [("profile", p * (4/5)), ("time_series", 2/25), ("map", 2/25),
       ("ts_diagram", 2/25), ("3d_scatter", 2/25)] := by
    rw [blendedScores_eq_explicit, i1, i2, i3, i4, i5,
      pyMax_eq_of_le (by linarith : (0:ℚ) ≤ p * (4/5)),
      show pyMax 0 (2/25 : ℚ) = 2/25 from by decide]
  have hcl : classifyPrompt "qqq" (3/10) p =
      selectStage4 (selectStage3 (selectStage2 (blendedScores "qqq" p) (3/10))) := by
    unfold classifyPrompt
    rw [flooredScores_eq_blended "qqq" hp]
  have hs1 : selectStage1 (blendedScores "qqq" p) (3/10) = ["profile"] := by
    rw [hb, selectStage1_cons_pos (show (3:ℚ)/10 ≤ p * (4/5) by linarith),
      selectStage1_cons_neg (by norm_num), selectStage1_cons_neg (by norm_num),
      selectStage1_cons_neg (by norm_num), selectStage1_cons_neg (by norm_num),
      selectStage1_nil]
  have hsortTail : sortDesc [(("time_series":String), (2:ℚ)/25), ("map", 2/25),
      ("ts_diagram", 2/25), ("3d_scatter", 2/25)] =
      [("time_series", 2/25), ("map", 2/25), ("ts_diagram", 2/25), ("3d_scatter", 2/25)] := by
    decide
  have hsort : sortDesc (blendedScores "qqq" p) = blendedScores "qqq" p := by
    rw [hb, sortDesc_cons, hsortTail]
    exact orderedInsert_cons_of_le (show (2:ℚ)/25 ≤ p * (4/5) by linarith)
  have hs2 : selectStage2 (blendedScores "qqq" p) (3/10) =
      (["profile"], blendedScores "qqq" p) := by
    unfold selectStage2
    rw [hs1, if_pos (by norm_num), hsort, hb]
    show List.foldl augmentStep _
      [("profile", p * (4/5)), ("time_series", (2:ℚ)/25), ("map", 2/25)] = _
    simp only [List.foldl_cons, List.foldl_nil]
    norm_num [augmentStep]
  rw [hcl, hs2, selectStage3_of_ne_nil (by simp)]
  unfold selectStage4
  rw [if_neg (by norm_num)]

/-- Full walk of `classify_prompt` on `"show me the water profile of mumbai"` at the
default threshold: the location rule has overwritten `profile` down to 0.6, so the
blended profile score is `max(0.6, 0.8p) ≤ 0.8`; four plots pass the threshold and the
selection is returned unchanged. -/
lemma classify_mumbai_walk (p : ℚ) :
    classifyPrompt "show me the water profile of mumbai" (3/10) p =
      (["profile", "map", "ts_diagram", "3d_scatter"],
       blendedScores "show me the water profile of mumbai" p) := by
  have i1 : getD (intelligentScores (pyLower "show me the water profile of mumbai"))
      "profile" = 3/5 := by decide
  have i2 : getD (intelligentScores (pyLower "show me the water profile of mumbai"))
      "time_series" = 0 := by decide
  have i3 : getD (intelligentScores (pyLower "show me the water profile of mumbai"))
      "map" = 9/10 := by decide
  have i4 : getD (intelligentScores (pyLower "show me the water profile of mumbai"))
      "ts_diagram" = 7/10 := by decide
  have i5 : getD (intelligentScores (pyLower "show me the water profile of mumbai"))
      "3d_scatter" = 4/5 := by decide
  have hb : blendedScores "show me the water profile of mumbai" p =
      [("profile", pyMax (3/5) (p * (4/5))), ("time_series", 2/25), ("map", 9/10),
       ("ts_diagram", 7/10), ("3d_scatter", 4/5)] := by
    rw [blendedScores_eq_explicit, i1, i2, i3, i4, i5,
      show pyMax 0 (2/25 : ℚ) = 2/25 from by decide,
      show pyMax (9/10 : ℚ) (2/25) = 9/10 from by decide,
      show pyMax (7/10 : ℚ) (2/25) = 7/10 from by decide,
      show pyMax (4/5 : ℚ) (2/25) = 4/5 from by decide]
  have hfloor : flooredScores "show me the water profile of mumbai" p =
      blendedScores "show me the water profile of mumbai" p := by
    have hmem : (("profile":String), pyMax (3/5) (p * (4/5)))
        ∈ blendedScores "show me the water profile of mumbai" p := by
      rw [hb]
      exact List.mem_cons_self _ _
    unfold flooredScores
    rw [if_neg]
    exact not_lt.2 (le_trans (le_trans (by norm_num) (le_pyMax_left (3/5) (p * (4/5))))
      (le_maxValues_of_mem hmem))
  have hs1 : selectStage1 (blendedScores "show me the water profile of mumbai" p) (3/10) =
      ["profile", "map", "ts_diagram", "3d_scatter"] := by
    rw [hb,
      selectStage1_cons_pos (show (3:ℚ)/10 ≤ pyMax (3/5) (p * (4/5)) from
        le_trans (by norm_num) (le_pyMax_left _ _)),
      selectStage1_cons_neg (by norm_num), selectStage1_cons_pos (by norm_num),
      selectStage1_cons_pos (by norm_num), selectStage1_cons_pos (by norm_num),
      selectStage1_nil]
  have hs2 : selectStage2 (blendedScores "show me the water profile of mumbai" p) (3/10) =
      (["profile", "map", "ts_diagram", "3d_scatter"],
       blendedScores "show me the water profile of mumbai" p) := by
    unfold selectStage2
    rw [hs1, if_neg (by norm_num)]
  unfold classifyPrompt
  rw [hfloor, hs2, selectStage3_of_ne_nil (by simp)]
  unfold selectStage4
  rw [if_neg (by norm_num)]

/-! ## Claim theorems -/

/-- C2 (amended): for every prompt, every threshold, and every value of the opaque model
probability, `classify_prompt` returns a chosen-plot list with between 1 and 4 entries,
all drawn from the fixed five-label chart-type set.  (The original claim's further
promises — "labels are added until at least 2 are present" and "when none qualify,
\x7b3d_scatter, profile\x7d is forced" — do not hold; see the counterexample.) -/
theorem classify_selection_bounded (prompt : String) (t p : ℚ) :
    1 ≤ (classifyPrompt prompt t p).1.length ∧
    (classifyPrompt prompt t p).1.length ≤ 4 ∧
    ∀ l ∈ (classifyPrompt prompt t p).1, l ∈ plotCategories := by
  have hkeys := flooredScores_keys prompt p
  have hlen5 := flooredScores_length prompt p
  have hex := flooredScores_exists_ge prompt p
  obtain ⟨hne2, hle2, hmem2⟩ := selectStage2_sound (flooredScores prompt p) t hkeys hlen5 hex
  have hc : classifyPrompt prompt t p =
      selectStage4 (selectStage2 (flooredScores prompt p) t) := by
    unfold classifyPrompt
    rw [selectStage3_of_ne_nil hne2]
  rw [hc]
  unfold selectStage4
  split
  · rename_i h4
    have hlen : (((sortDesc ((selectStage2 (flooredScores prompt p) t).1.map
        (fun l => (l, getD (selectStage2 (flooredScores prompt p) t).2 l)))).take 4).map
          Prod.fst).length = 4 := by
      rw [List.length_map, List.length_take, length_sortDesc, List.length_map]
      omega
    refine ⟨by rw [hlen]; norm_num, by rw [hlen], ?_⟩
    intro l hl
    simp only [List.mem_map] at hl
    obtain ⟨kv, hkv, rfl⟩ := hl
    have hkv' : kv ∈ (selectStage2 (flooredScores prompt p) t).1.map
        (fun l => (l, getD (selectStage2 (flooredScores prompt p) t).2 l)) :=
      mem_sortDesc.1 (List.mem_of_mem_take hkv)
    simp only [List.mem_map] at hkv'
    obtain ⟨x, hx, rfl⟩ := hkv'
    exact hmem2 x hx
  · rename_i h4
    exact ⟨List.length_pos.2 hne2, by omega, hmem2⟩

/-- C9 (amended): the score dict returned by `classify_prompt` carries exactly the five
labels of `plot_categories` — in particular it never contains a `cross_section` entry —
and every stored confidence lies in [0, 1]. -/
theorem classify_scoreset_keys_bounds (prompt : String) (t p : ℚ)
    (h0 : 0 ≤ p) (h1 : p ≤ 1) :
    (classifyPrompt prompt t p).2.map Prod.fst = plotCategories ∧
    scoresIn01 (classifyPrompt prompt t p).2 ∧
    "cross_section" ∉ (classifyPrompt prompt t p).2.map Prod.fst := by
  have h2k : (selectStage2 (flooredScores prompt p) t).2.map Prod.fst = plotCategories := by
    rw [selectStage2_snd_keys]
    exact flooredScores_keys prompt p
  have h2b := selectStage2_snd_in01 (flooredScores prompt p) t
    (flooredScores_in01 prompt h0 h1)
  have h3k : (selectStage3 (selectStage2 (flooredScores prompt p) t)).2.map Prod.fst
      = plotCategories := by
    unfold selectStage3
    split
    · dsimp only
      rw [setV_keys, setV_keys]
      exact h2k
    · exact h2k
  have h3b : scoresIn01 (selectStage3 (selectStage2 (flooredScores prompt p) t)).2 := by
    unfold selectStage3
    split
    · dsimp only
      exact scoresIn01_setV (scoresIn01_setV h2b (by norm_num) (by norm_num))
        (by norm_num) (by norm_num)
    · exact h2b
  have hfin : (classifyPrompt prompt t p).2
      = (selectStage3 (selectStage2 (flooredScores prompt p) t)).2 := by
    unfold classifyPrompt
    exact selectStage4_snd _
  rw [hfin, h3k]
  exact ⟨rfl, h3b, by decide⟩

/-- C2 counterexample: on the keyword-free prompt "qqq" at the default threshold 0.3,
with the minimal admissible model probability 0.5, exactly ONE label reaches the
threshold, yet the returned selection stays that single label: the complementary-plot
loop adds nothing (all other scores are 0.08 < 0.2), so neither the "at least 2 labels"
guarantee nor the \x7b3d_scatter, profile\x7d forcing of the claim happens.
(`classify_qqq_walk` proves the same selection for every admissible probability.) -/
theorem classify_pair_guarantee_fails :
    ((flooredScores "qqq" (1/2)).filter (fun kv => (3/10 : ℚ) ≤ kv.2)).length = 1 ∧
    (classifyPrompt "qqq" (3/10) (1/2)).1 = ["profile"] :=
  ⟨by decide, by decide⟩

/-- C3 (code-bug evidence): the mis-indexed `predict_proba` read gives `profile` a
model probability `p ≥ 1/2` on every prompt, so the blended maximum is always at least
`0.8 * 1/2 = 0.4` and the "vague prompt" floor of lines 205–209 can never fire.  In
particular the empty prompt — which the spec expects to trigger the floor — returns a
score set whose `time_series` entry is 0.08, not the floor set's 0. -/
theorem classify_floor_unreachable (prompt : String) (p : ℚ) (hp : 1/2 ≤ p) :
    ¬ maxValues (blendedScores prompt p) < 2/5 ∧
    flooredScores prompt p = blendedScores prompt p ∧
    getD (classifyPrompt "" (3/10) (1/2)).2 "time_series" = 2/25 ∧
    (classifyPrompt "" (3/10) (1/2)).2 ≠
      [("profile", 7/10), ("time_series", 0), ("map", 3/5), ("ts_diagram", 0),
       ("3d_scatter", 4/5)] :=
  ⟨not_lt.2 (blendedScores_max_ge prompt hp), flooredScores_eq_blended prompt hp,
   by decide, by decide⟩

/-- Witness for `classify_floor_unreachable` at the empty prompt and `p = 1/2`. -/
theorem classify_floor_unreachable_witness :
    ((1:ℚ)/2 ≤ 1/2) ∧
    (¬ maxValues (blendedScores "" (1/2)) < 2/5 ∧
     flooredScores "" (1/2) = blendedScores "" (1/2) ∧
     getD (classifyPrompt "" (3/10) (1/2)).2 "time_series" = 2/25 ∧
     (classifyPrompt "" (3/10) (1/2)).2 ≠
       [("profile", 7/10), ("time_series", 0), ("map", 3/5), ("ts_diagram", 0),
        ("3d_scatter", 4/5)]) :=
  ⟨le_refl _, classify_floor_unreachable "" (1/2) (le_refl _)⟩

/-- C4 counterexample: on the scenario prompt "show me the water profile of mumbai"
at the default threshold (model probability at its admissible minimum 0.5), `profile`
IS selected together with complementary plots, but its blended score is 0.6 — not the
claimed ≥ 0.9 — because the location rule triggered by "mumbai" overwrites the profile
score from 0.9 down to 0.6. -/
theorem classify_mumbai_profile_score_low :
    (classifyPrompt "show me the water profile of mumbai" (3/10) (1/2)).1 =
      ["profile", "map", "ts_diagram", "3d_scatter"] ∧
    getD (classifyPrompt "show me the water profile of mumbai" (3/10) (1/2)).2
      "profile" = 3/5 ∧
    ¬ (9/10 : ℚ) ≤ 3/5 :=
  ⟨by decide, by decide, by norm_num⟩

/-- C4 (amended): for every admissible model probability, the scenario prompt selects
`profile` together with BOTH complementary labels `ts_diagram` and `3d_scatter` (and
`map`), and profile's blended score lies in [0.6, 0.8] — hence below the 0.9 the
original claim asserts. -/
theorem classify_mumbai_profile_amended (p : ℚ) (hp : 1/2 ≤ p) (hp1 : p ≤ 1) :
    "profile" ∈ (classifyPrompt "show me the water profile of mumbai" (3/10) p).1 ∧
    "ts_diagram" ∈ (classifyPrompt "show me the water profile of mumbai" (3/10) p).1 ∧
    "3d_scatter" ∈ (classifyPrompt "show me the water profile of mumbai" (3/10) p).1 ∧
    3/5 ≤ getD (classifyPrompt "show me the water profile of mumbai" (3/10) p).2 "profile" ∧
    getD (classifyPrompt "show me the water profile of mumbai" (3/10) p).2 "profile" ≤ 4/5 ∧
    getD (classifyPrompt "show me the water profile of mumbai" (3/10) p).2 "profile" < 9/10 := by
  have hw := classify_mumbai_walk p
  have hscore : getD (classifyPrompt "show me the water profile of mumbai" (3/10) p).2
      "profile" = pyMax (3/5) (p * (4/5)) := by
    rw [hw, blendedScores_eq_explicit]
    rw [show getD (intelligentScores (pyLower "show me the water profile of mumbai"))
      "profile" = 3/5 from by decide]
    simp [getD]
  have h45 : pyMax ((3:ℚ)/5) (p * (4/5)) ≤ 4/5 := pyMax_le (by norm_num) (by linarith)
  rw [hscore, hw]
  exact ⟨by simp, by simp, by simp, le_pyMax_left _ _, h45,
    lt_of_le_of_lt h45 (by norm_num)⟩

/-- Witness for `classify_mumbai_profile_amended` at `p = 1/2`. -/
theorem classify_mumbai_profile_amended_witness :
    ((1:ℚ)/2 ≤ 1/2 ∧ (1:ℚ)/2 ≤ 1) ∧
    ("profile" ∈ (classifyPrompt "show me the water profile of mumbai" (3/10) (1/2)).1 ∧
     "ts_diagram" ∈ (classifyPrompt "show me the water profile of mumbai" (3/10) (1/2)).1 ∧
     "3d_scatter" ∈ (classifyPrompt "show me the water profile of mumbai" (3/10) (1/2)).1 ∧
     3/5 ≤ getD (classifyPrompt "show me the water profile of mumbai" (3/10) (1/2)).2
       "profile" ∧
     getD (classifyPrompt "show me the water profile of mumbai" (3/10) (1/2)).2
       "profile" ≤ 4/5 ∧
     getD (classifyPrompt "show me the water profile of mumbai" (3/10) (1/2)).2
       "profile" < 9/10) :=
  ⟨⟨le_refl _, by norm_num⟩,
   classify_mumbai_profile_amended (1/2) (le_refl _) (by norm_num)⟩

/-- C9 counterexample: on a concrete prompt the returned score dict's key list is
exactly the five labels of `plot_categories`; `cross_section` has no entry, refuting
the claimed six-label invariant. -/
theorem scoreset_missing_cross_section :
    (classifyPrompt "show me ocean data" (3/10) (1/2)).2.map Prod.fst = plotCategories ∧
    "cross_section" ∉ (classifyPrompt "show me ocean data" (3/10) (1/2)).2.map Prod.fst :=
  ⟨by decide, by decide⟩

/-- Witness for `classify_scoreset_keys_bounds` at a concrete prompt and `p = 1/2`. -/
theorem classify_scoreset_keys_bounds_witness :
    (0 ≤ (1:ℚ)/2 ∧ (1:ℚ)/2 ≤ 1) ∧
    ((classifyPrompt "temperature map" (3/10) (1/2)).2.map Prod.fst = plotCategories ∧
     scoresIn01 (classifyPrompt "temperature map" (3/10) (1/2)).2 ∧
     "cross_section" ∉ (classifyPrompt "temperature map" (3/10) (1/2)).2.map Prod.fst) :=
  ⟨⟨by norm_num, by norm_num⟩,
   classify_scoreset_keys_bounds "temperature map" (3/10) (1/2) (by norm_num) (by norm_num)⟩

/-- C7 counterexample: the pipeline's query-intent extractor
(`_extract_query_metadata`) has NO alternate names in its gazetteer, so user text
containing "bombay" yields no location at all (not "Mumbai" as the claim states). -/
theorem metadata_location_bombay_none :
    (extractQueryMetadata "select * from argo_floats;"
      "show temperature near bombay").location = none ∧
    (none : Option String) ≠ some "Mumbai" :=
  ⟨by decide, by decide⟩

/-- C7 (amended): the plot generator's `extract_location` behaves as the claim says —
case-insensitive substring gazetteer with alternate names ("bombay" → "Mumbai"), cities
checked before ocean regions, first match wins, title-cased, absent when no keyword
occurs.  The pipeline's `_extract_query_metadata` instead uses plain city names only
(no alternates) and lets a later ocean-region match OVERRIDE an earlier city match. -/
theorem location_extraction_amended :
    (∀ s : String, strContains (pyLower s) "bombay" = true →
       extractLocation s = some "Mumbai") ∧
    (∀ s : String, (∀ kw ∈ allLocationKeywords, strContains (pyLower s) kw = false) →
       extractLocation s = none) ∧
    extractLocation "bay of bengal data" = some "Bay Of Bengal" ∧
    (extractQueryMetadata "" "mumbai data from the arabian sea").location =
      some "Arabian Sea" := by
  refine ⟨?_, ?_, by decide, by decide⟩
  · intro s h
    unfold extractLocation locationsGazetteer
    rw [List.find?_cons_of_pos _ (by simp [containsAny, h])]
    rw [Option.map_some']
    decide
  · intro s h
    have h1 := h "mumbai" (by decide)
    have h2 := h "bombay" (by decide)
    have h3 := h "chennai" (by decide)
    have h4 := h "madras" (by decide)
    have h5 := h "kolkata" (by decide)
    have h6 := h "calcutta" (by decide)
    have h7 := h "delhi" (by decide)
    have h8 := h "new delhi" (by decide)
    have h9 := h "bangalore" (by decide)
    have h10 := h "bengaluru" (by decide)
    have h11 := h "goa" (by decide)
    have h12 := h "kerala" (by decide)
    have h13 := h "kochi" (by decide)
    have h14 := h "cochin" (by decide)
    have h15 := h "gujarat" (by decide)
    have h16 := h "ahmedabad" (by decide)
    have h17 := h "arabian sea" (by decide)
    have h18 := h "arabian" (by decide)
    have h19 := h "bay of bengal" (by decide)
    have h20 := h "bengal bay" (by decide)
    have h21 := h "indian ocean" (by decide)
    unfold extractLocation locationsGazetteer
    simp [containsAny, List.find?, h1, h2, h3, h4, h5, h6, h7, h8, h9, h10, h11,
      h12, h13, h14, h15, h16, h17, h18, h19, h20, h21]

/-- Witness for `location_extraction_amended`: the alternate name resolves, and a
keyword-free text yields no location. -/
theorem location_extraction_amended_witness :
    extractLocation "temperature near bombay" = some "Mumbai" ∧
    extractLocation "hello there" = none :=
  ⟨location_extraction_amended.1 "temperature near bombay" (by decide),
   location_extraction_amended.2.1 "hello there" (by decide)⟩

/-- C8 counterexample: a query ordering by the pressure column DESCENDING is still
classified `profile` by the code, while the claim's precedence ("orders ... ascending",
"filters by a float identifier") would classify it `general`. -/
theorem category_desc_order_mismatch :
    (extractQueryMetadata
      "SELECT * FROM argo_floats ORDER BY pressure_dbar DESC LIMIT 100;" "").query_type
      = "profile" ∧
    specCategoryClaim
      (pyLower "SELECT * FROM argo_floats ORDER BY pressure_dbar DESC LIMIT 100;")
      = "general" ∧
    ("profile" : String) ≠ "general" :=
  ⟨by decide, by decide, by decide⟩

/-- C8 (amended): for every generated query and user text, the category and the spatial
flag are assigned by the precedence chain of `specCategoryAmended`: profile on any
`order by pressure_dbar` mention (direction ignored), else time_series on
`order by date_time`, else spatial (flag set) on a `ST_DWithin`/`ST_Distance` mention,
else float_specific on any `float_id` mention, else general. -/
theorem category_precedence_amended (sql user : String) :
    (extractQueryMetadata sql user).query_type = (specCategoryAmended (pyLower sql)).1 ∧
    (extractQueryMetadata sql user).spatial_query = (specCategoryAmended (pyLower sql)).2 :=
  ⟨rfl, rfl⟩

lemma errorNarrative_ne_empty (q : String) : errorNarrative q ≠ "" := by
  intro h
  have hlen := congrArg String.length h
  rw [errorNarrative, String.length_append, String.length_append] at hlen
  have hpos :
      0 < ("I encountered a technical issue while processing: \"").length := by decide
  rw [show ("" : String).length = 0 from rfl] at hlen
  omega

/-- C1: `process_user_query` is the composition of the outer try body with the
orchestrator-boundary except handler: for every input text and every collaborator
behavior, the call returns either the body's response, or — when an exception escapes
the body — exactly `_handle_error_response`, a terminal response with `success = false`,
the recorded error, and the fixed nonempty remediation narrative.  No exception
propagates past `process_user_query`. -/
theorem process_query_boundary (C : Collaborators) (q : String) :
    (∃ r, pipelineBody C q = Except.ok r ∧ processUserQuery C q = r) ∨
    (∃ e, pipelineBody C q = Except.error e ∧
       processUserQuery C q = handleErrorResponse q e ∧
       (processUserQuery C q).success = false ∧
       (processUserQuery C q).chat_response = errorNarrative q ∧
       (processUserQuery C q).error = some e ∧
       (processUserQuery C q).chat_response ≠ "") := by
  cases hb : pipelineBody C q with
  | ok r =>
    left
    exact ⟨r, rfl, by unfold processUserQuery; rw [hb]⟩
  | error e =>
    right
    have hpq : processUserQuery C q = handleErrorResponse q e := by
      unfold processUserQuery
      rw [hb]
    refine ⟨e, rfl, hpq, ?_, ?_, ?_, ?_⟩ <;> rw [hpq]
    · rfl
    · rfl
    · rfl
    · exact errorNarrative_ne_empty q

/-- C5: when retrieval returns an empty table, `process_user_query` short-circuits to
the no-data terminal response — `success = false`, a nonempty suggestions list, no
chart results — and the outcome does not depend on the visualization or narration
collaborators at all (two runs differing only in those collaborators coincide). -/
theorem process_query_no_data (C C' : Collaborators) (q : String)
    (hInit : C.initOk = C'.initOk) (hLlm : C.llmResult = C'.llmResult)
    (hDb : C.dbResult = C'.dbResult)
    (hEmpty : (fetchDataFromDb C.dbResult).nrows = 0) :
    processUserQuery C q = processUserQuery C' q ∧
    processUserQuery C q = handleNoDataResponse q (pipelineStep1 C q).2 ∧
    (processUserQuery C q).success = false ∧
    (processUserQuery C q).suggestions ≠ [] ∧
    (processUserQuery C q).plots = [] := by
  have hstep : pipelineStep1 C q = pipelineStep1 C' q := by
    unfold pipelineStep1
    rw [hInit, hLlm]
  have hpq : processUserQuery C q = handleNoDataResponse q (pipelineStep1 C q).2 := by
    unfold processUserQuery pipelineBody
    rw [if_pos hEmpty]
  have hpq' : processUserQuery C' q = handleNoDataResponse q (pipelineStep1 C' q).2 := by
    unfold processUserQuery pipelineBody
    rw [← hDb, if_pos hEmpty]
  refine ⟨?_, hpq, ?_, ?_, ?_⟩
  · rw [hpq, hpq', hstep]
  · rw [hpq]; rfl
  · rw [hpq]; exact List.cons_ne_nil _ _
  · rw [hpq]; rfl

/-- Witness for `process_query_no_data`: a successful DB round-trip returning zero rows,
with the two runs differing in both the plot and the chat collaborators. -/
theorem process_query_no_data_witness :
    ((⟨true, .ok "SELECT 1;", .ok ⟨0, []⟩, .error "render down", .error "chat down",
        0, "t"⟩ : Collaborators).initOk
      = (⟨true, .ok "SELECT 1;", .ok ⟨0, []⟩, .ok ⟨true, none, [], [], [], none⟩,
          .ok "hello", 0, "t"⟩ : Collaborators).initOk ∧
     (⟨true, .ok "SELECT 1;", .ok ⟨0, []⟩, .error "render down", .error "chat down",
        0, "t"⟩ : Collaborators).llmResult
      = (⟨true, .ok "SELECT 1;", .ok ⟨0, []⟩, .ok ⟨true, none, [], [], [], none⟩,
          .ok "hello", 0, "t"⟩ : Collaborators).llmResult ∧
     (⟨true, .ok "SELECT 1;", .ok ⟨0, []⟩, .error "render down", .error "chat down",
        0, "t"⟩ : Collaborators).dbResult
      = (⟨true, .ok "SELECT 1;", .ok ⟨0, []⟩, .ok ⟨true, none, [], [], [], none⟩,
          .ok "hello", 0, "t"⟩ : Collaborators).dbResult ∧
     (fetchDataFromDb (⟨true, .ok "SELECT 1;", .ok ⟨0, []⟩, .error "render down",
        .error "chat down", 0, "t"⟩ : Collaborators).dbResult).nrows = 0) ∧
    ((processUserQuery ⟨true, .ok "SELECT 1;", .ok ⟨0, []⟩, .error "render down",
        .error "chat down", 0, "t"⟩ "q").success = false ∧
     (processUserQuery ⟨true, .ok "SELECT 1;", .ok ⟨0, []⟩, .error "render down",
        .error "chat down", 0, "t"⟩ "q").suggestions ≠ []) := by
  have h := process_query_no_data
    ⟨true, .ok "SELECT 1;", .ok ⟨0, []⟩, .error "render down", .error "chat down", 0, "t"⟩
    ⟨true, .ok "SELECT 1;", .ok ⟨0, []⟩, .ok ⟨true, none, [], [], [], none⟩,
      .ok "hello", 0, "t"⟩
    "q" rfl rfl rfl rfl
  exact ⟨⟨rfl, rfl, rfl, rfl⟩, h.2.2.1, h.2.2.2.1⟩

/-- C6: when the visualization stage raises, the stage result becomes the fixed
fallback dict recording the error text with an empty chart-result list; the pipeline
still proceeds through summarization and narration and returns a complete response
(`success = true`, empty `plots`, the narrative produced by the chatbot). -/
theorem process_query_render_failure (C : Collaborators) (q e chat : String)
    (hPlot : C.plotOutcome = .error e)
    (hChat : C.chatOutcome = .ok chat)
    (hInit : C.initOk = true)
    (hNonempty : ¬ (fetchDataFromDb C.dbResult).nrows = 0) :
    pipelinePlotStage C = { success := false, error := some e, plots := [],
                            classification_scores := [], chosen_plots := [],
                            all_saved_files := none } ∧
    (processUserQuery C q).success = true ∧
    (processUserQuery C q).plots = [] ∧
    (processUserQuery C q).chat_response = chat ∧
    (processUserQuery C q).saved_files = some [] := by
  have hstage : pipelinePlotStage C =
      { success := false, error := some e, plots := [],
        classification_scores := [], chosen_plots := [], all_saved_files := none } := by
    unfold pipelinePlotStage
    rw [hPlot]
  have hpq : processUserQuery C q = packageCompleteResponse q (pipelineStep1 C q).1
      (pipelineStep1 C q).2 (buildDataSummary (fetchDataFromDb C.dbResult))
      (pipelinePlotStage C) chat C.elapsed C.timestamp := by
    unfold processUserQuery pipelineBody
    rw [if_neg hNonempty, hInit, hChat]
    rfl
  refine ⟨hstage, ?_, ?_, ?_, ?_⟩ <;> rw [hpq]
  · rfl
  · show (if (pipelinePlotStage C).success then (pipelinePlotStage C).plots else []) = []
    rw [hstage]
    rfl
  · rfl
  · show some (collectSavedFiles (pipelinePlotStage C)) = some []
    rw [hstage]
    rfl

/-- Witness for `process_query_render_failure`: a failing DB (hence the nonempty mock
frame), a raising plot stage, and a successful chatbot call. -/
theorem process_query_render_failure_witness :
    ((⟨true, .ok "SELECT 1;", .error "db down", .error "renderer exploded",
        .ok "here is your analysis", 0, "t"⟩ : Collaborators).plotOutcome
       = .error "renderer exploded" ∧
     (⟨true, .ok "SELECT 1;", .error "db down", .error "renderer exploded",
        .ok "here is your analysis", 0, "t"⟩ : Collaborators).chatOutcome
       = .ok "here is your analysis" ∧
     ¬ (fetchDataFromDb (⟨true, .ok "SELECT 1;", .error "db down", .error "renderer exploded",
        .ok "here is your analysis", 0, "t"⟩ : Collaborators).dbResult).nrows = 0) ∧
    ((processUserQuery ⟨true, .ok "SELECT 1;", .error "db down", .error "renderer exploded",
        .ok "here is your analysis", 0, "t"⟩ "q").success = true ∧
     (processUserQuery ⟨true, .ok "SELECT 1;", .error "db down", .error "renderer exploded",
        .ok "here is your analysis", 0, "t"⟩ "q").plots = [] ∧
     (processUserQuery ⟨true, .ok "SELECT 1;", .error "db down", .error "renderer exploded",
        .ok "here is your analysis", 0, "t"⟩ "q").chat_response = "here is your analysis") := by
  have h := process_query_render_failure
    ⟨true, .ok "SELECT 1;", .error "db down", .error "renderer exploded",
      .ok "here is your analysis", 0, "t"⟩
    "q" "renderer exploded" "here is your analysis" rfl rfl rfl (by decide)
  exact ⟨⟨rfl, rfl, by decide⟩, h.2.1, h.2.2.1, h.2.2.2.1⟩

lemma renameColumn_ne_lowercase (s : String) :
    renameColumn s ≠ "pressure_dbar" ∧ renameColumn s ≠ "temperature_celsius" ∧
    renameColumn s ≠ "salinity_psu" := by
  unfold renameColumn
  split_ifs with h1 h2 h3 h4 h5 h6 h7
  · exact ⟨by decide, by decide, by decide⟩
  · exact ⟨by decide, by decide, by decide⟩
  · exact ⟨by decide, by decide, by decide⟩
  · exact ⟨by decide, by decide, by decide⟩
  · exact ⟨by decide, by decide, by decide⟩
  · exact ⟨by decide, by decide, by decide⟩
  · exact ⟨by decide, by decide, by decide⟩
  · exact ⟨h4, h5, h6⟩

lemma not_mem_renamed (raw : DataFrame) (name : String)
    (hname : ∀ s, renameColumn s ≠ name) :
    name ∉ (renameDf raw).columnNames := by
  intro h
  simp only [renameDf, DataFrame.columnNames, List.map_map, List.mem_map,
    Function.comp] at h
  obtain ⟨c, -, hc⟩ := h
  exact hname c.1 hc

/-- C10: whatever table the fetch step returns — a renamed DB result (columns mapped to
the capitalized `Pressure_dbar`/`Temperature_Celsius`/`Salinity_PSU`) or the mock frame
— the depth, temperature, and salinity summary helpers always take their fixed
fallbacks, because they look up the LOWERCASE column names that no fetched frame can
contain. -/
theorem summary_fallback_after_fetch (dbResult : Except String DataFrame) :
    getDepthRange (fetchDataFromDb dbResult) = (0, 2000) ∧
    getTempRange (fetchDataFromDb dbResult) = (2, 30, 15) ∧
    getSalinityRange (fetchDataFromDb dbResult) = (33, 37, 35) := by
  cases dbResult with
  | error e =>
    exact ⟨(by decide : getDepthRange mockDataFrame = (0, 2000)),
           (by decide : getTempRange mockDataFrame = (2, 30, 15)),
           (by decide : getSalinityRange mockDataFrame = (33, 37, 35))⟩
  | ok raw =>
    refine ⟨?_, ?_, ?_⟩
    · show getDepthRange (renameDf raw) = (0, 2000)
      unfold getDepthRange
      rw [if_neg (not_mem_renamed raw _ (fun s => (renameColumn_ne_lowercase s).1))]
    · show getTempRange (renameDf raw) = (2, 30, 15)
      unfold getTempRange
      rw [if_neg (not_mem_renamed raw _ (fun s => (renameColumn_ne_lowercase s).2.1))]
    · show getSalinityRange (renameDf raw) = (33, 37, 35)
      unfold getSalinityRange
      rw [if_neg]
      rintro ⟨hmem, -⟩
      exact not_mem_renamed raw _ (fun s => (renameColumn_ne_lowercase s).2.2) hmem

end FloatChat
